import Mathlib

/-!
Verification of the Bayesian proportion-inference core of the repository:
the credible-interval helper `bernoulli_beta_credible_interval` and the
posterior-comparison simulation from the notebook.

Python numbers that reach the function are modelled by `PyNum` (the code
distinguishes the dynamic types `int` and `float` with `type(x) is ...`
checks); exact rational arithmetic stands in for Python floats.  The
external Beta quantile function `beta.ppf` is a parameter `ppf`, since the
distribution library is an external collaborator of the core.
-/

/-- A Python numeric value as the credible-interval function sees it:
either an `int` or a `float`.  The code tests the dynamic type with
`type(M) is not int` and `type(C) is not float`. -/
inductive PyNum where
  | int : Int → PyNum
  | float : ℚ → PyNum
deriving DecidableEq, Repr

/-- Numeric value carried by a `PyNum`. -/
def PyNum.val : PyNum → ℚ
  | .int i => (i : ℚ)
  | .float q => q

/-- Dynamic-type test mirroring Python `type(x) is int`. -/
def PyNum.isInt : PyNum → Bool
  | .int _ => true
  | .float _ => false

/-- Dynamic-type test mirroring Python `type(x) is float`. -/
def PyNum.isFloat : PyNum → Bool
  | .int _ => false
  | .float _ => true

/-- Exceptions the function raises: Python `TypeError` and `ValueError`,
each carrying its message. -/
inductive PyError where
  | typeError : String → PyError
  | valueError : String → PyError
deriving DecidableEq, Repr

/-- The human-readable message carried by a raised error. -/
def PyError.message : PyError → String
  | .typeError m => m
  | .valueError m => m

deriving instance DecidableEq for Except

/-- Embedding of the notebook function

```python
def bernoulli_beta_credible_interval(M, N, a=1, b=1, C=.95):
    if type(M) is not int or type(N) is not int:
        raise TypeError("M, N must both be integers")
    elif M < 0 or N < M:
        raise ValueError("M, N must be non-negative, and N >= M")
    elif a <= 0 or b <= 0:
        raise ValueError("Cannot have negative prior parameters!")
    elif type(C) is not float:
        raise TypeError("C must be numeric")
    elif C < 0 or C > 1:
        raise ValueError("C must be interpretable as a probability")
    post = (a + M, b + N - M)
    alpha = (1 - C)/2
    return (beta.ppf(alpha, post[0], post[1]), beta.ppf(1 - alpha, post[0], post[1]))
```

with `beta.ppf` abstracted as the argument `ppf`. -/
def bernoulli_beta_credible_interval (ppf : ℚ → ℚ → ℚ → ℚ)
    (M N a b C : PyNum) : Except PyError (ℚ × ℚ) :=
  if M.isInt = false ∨ N.isInt = false then
    .error (.typeError "M, N must both be integers")
  else if M.val < 0 ∨ N.val < M.val then
    .error (.valueError "M, N must be non-negative, and N >= M")
  else if a.val ≤ 0 ∨ b.val ≤ 0 then
    .error (.valueError "Cannot have negative prior parameters!")
  else if C.isFloat = false then
    .error (.typeError "C must be numeric")
  else if C.val < 0 ∨ 1 < C.val then
    .error (.valueError "C must be interpretable as a probability")
  else
    let post := (a.val + M.val, b.val + N.val - M.val)
    let alpha := (1 - C.val) / 2
    .ok (ppf alpha post.1 post.2, ppf (1 - alpha) post.1 post.2)

/-- Entry point corresponding to calling the function with only `M` and `N`
supplied, so the Python defaults `a=1, b=1, C=.95` apply (the defaults `1`
are Python ints, `.95` a Python float). -/
def bernoulli_beta_credible_interval_MN (ppf : ℚ → ℚ → ℚ → ℚ)
    (M N : PyNum) : Except PyError (ℚ × ℚ) :=
  bernoulli_beta_credible_interval ppf M N (PyNum.int 1) (PyNum.int 1)
    (PyNum.float (19 / 20))

/-- Embedding of the notebook comparison step `trial = random_A < random_B`:
the numpy elementwise comparison of the two posterior sample arrays,
producing a boolean array. -/
def trial (random_A random_B : List ℚ) : List Bool :=
  List.zipWith (fun x y => decide (x < y)) random_A random_B

/-- Embedding of `trial.sum()`: the number of sampled pairs in which the
draw for theta_A is below the draw for theta_B. -/
def trial_sum (random_A random_B : List ℚ) : ℕ :=
  (trial random_A random_B).count true

/-- Embedding of `trial.mean()`: the estimated probability that
theta_A < theta_B, the mean of the boolean array `trial`. -/
def trial_mean (random_A random_B : List ℚ) : ℚ :=
  (trial_sum random_A random_B : ℚ) / ((trial random_A random_B).length : ℚ)

/-- Specification-side count used to state C8: the number of indices `i`
below `n` with `S_A[i] < S_B[i]`, written by direct indexing and
independently of the `zipWith` evaluation order of `trial`. -/
def spec_count_below (n : ℕ) (sA sB : List ℚ) : ℕ :=
  (List.range n).countP (fun i => decide (sA.getD i 0 < sB.getD i 0))

/-- The single error kind of the specification's error-handling design. -/
inductive SpecError where
  | invalidArgument : String → SpecError
deriving DecidableEq, Repr

/-- Modelled from the spec: the repository notebook only inlines the
posterior comparison with fixed, valid constants (`N = 1000`,
posteriors `(111, 411)` and `(147, 369)`) and contains no
`compare_posteriors` function performing argument validation, so the
operation of spec section 4.2 with its failure semantics is absent from
the source.  Following the spec words: fail with InvalidArgument if
`num_samples < 1` or either BetaParameters has a non-positive component;
otherwise draw the two sample sequences through the external provider
`sample` and return the fraction of pairs with the A-draw below the
B-draw.  The external random-variate generator (including any seed) is
abstracted as the argument `sample`. -/
def compare_posteriors (sample : ℚ → ℚ → Int → List ℚ)
    (posterior_A posterior_B : ℚ × ℚ) (num_samples : Int) :
    Except SpecError ℚ :=
  if num_samples < 1 then
    .error (.invalidArgument "num_samples must be at least 1")
  else if posterior_A.1 ≤ 0 ∨ posterior_A.2 ≤ 0 ∨
      posterior_B.1 ≤ 0 ∨ posterior_B.2 ≤ 0 then
    .error (.invalidArgument "posterior parameters must be strictly positive")
  else
    .ok (trial_mean (sample posterior_A.1 posterior_A.2 num_samples)
      (sample posterior_B.1 posterior_B.2 num_samples))

/-- Shared characterisation: on inputs satisfying every precondition, the
function returns the pair of posterior Beta quantiles at the two tail
masses. -/
theorem ci_ok_of_valid (ppf : ℚ → ℚ → ℚ → ℚ) (M N a b C : PyNum)
    (hM : M.isInt = true) (hN : N.isInt = true)
    (h0M : 0 ≤ M.val) (hMN : M.val ≤ N.val)
    (ha : 0 < a.val) (hb : 0 < b.val)
    (hC : C.isFloat = true) (hC0 : 0 ≤ C.val) (hC1 : C.val ≤ 1) :
    bernoulli_beta_credible_interval ppf M N a b C =
      Except.ok
        (ppf ((1 - C.val) / 2) (a.val + M.val) (b.val + N.val - M.val),
         ppf (1 - (1 - C.val) / 2) (a.val + M.val) (b.val + N.val - M.val)) := by
  have c2 : ¬(M.val < 0 ∨ N.val < M.val) := by push_neg; exact ⟨h0M, hMN⟩
  have c3 : ¬(a.val ≤ 0 ∨ b.val ≤ 0) := by push_neg; exact ⟨ha, hb⟩
  have c5 : ¬(C.val < 0 ∨ 1 < C.val) := by push_neg; exact ⟨hC0, hC1⟩
  simp [bernoulli_beta_credible_interval, hM, hN, hC, c2, c3, c5]

/-- Claim C1: on every input satisfying the preconditions, the function
computes the posterior parameters `a + M` and `b + (N - M)`, the tail mass
`(1 - C)/2`, and returns exactly the pair of external Beta quantiles at
tail mass and one minus tail mass for those posterior parameters. -/
theorem credible_interval_posterior_quantiles (ppf : ℚ → ℚ → ℚ → ℚ)
    (M N a b C : PyNum)
    (hM : M.isInt = true) (hN : N.isInt = true)
    (h0M : 0 ≤ M.val) (hMN : M.val ≤ N.val)
    (ha : 0 < a.val) (hb : 0 < b.val)
    (hC : C.isFloat = true) (hC0 : 0 ≤ C.val) (hC1 : C.val ≤ 1) :
    bernoulli_beta_credible_interval ppf M N a b C =
      Except.ok
        (ppf ((1 - C.val) / 2) (a.val + M.val) (b.val + (N.val - M.val)),
         ppf (1 - (1 - C.val) / 2) (a.val + M.val) (b.val + (N.val - M.val))) := by
  have h := ci_ok_of_valid ppf M N a b C hM hN h0M hMN ha hb hC hC0 hC1
  rw [h]
  ring_nf

/-- Witness for C1 at M = 3, N = 10, prior Beta(1,1), C = 1/2, with the
identity-in-p quantile stub: the interval is (1/4, 3/4). -/
theorem credible_interval_posterior_quantiles_witness :
    bernoulli_beta_credible_interval (fun p _ _ => p) (PyNum.int 3)
      (PyNum.int 10) (PyNum.float 1) (PyNum.float 1) (PyNum.float (1 / 2)) =
      Except.ok (1 / 4, 3 / 4) := by
  have h := credible_interval_posterior_quantiles (fun p _ _ => p)
    (PyNum.int 3) (PyNum.int 10) (PyNum.float 1) (PyNum.float 1)
    (PyNum.float (1 / 2)) rfl rfl (by norm_num [PyNum.val])
    (by norm_num [PyNum.val]) (by norm_num [PyNum.val])
    (by norm_num [PyNum.val]) rfl (by norm_num [PyNum.val])
    (by norm_num [PyNum.val])
  norm_num [PyNum.val] at h
  exact h

/-- Claim C2: on every valid input, assuming the external quantile function
is monotone in its probability argument with range inside the unit
interval, the function returns an interval pair with lower bound at most
the upper bound and both bounds in the unit interval. -/
theorem credible_interval_bounds_unit (ppf : ℚ → ℚ → ℚ → ℚ)
    (M N a b C : PyNum)
    (hmono : ∀ p q x y : ℚ, p ≤ q → ppf p x y ≤ ppf q x y)
    (hrange : ∀ p x y : ℚ, 0 ≤ ppf p x y ∧ ppf p x y ≤ 1)
    (hM : M.isInt = true) (hN : N.isInt = true)
    (h0M : 0 ≤ M.val) (hMN : M.val ≤ N.val)
    (ha : 0 < a.val) (hb : 0 < b.val)
    (hC : C.isFloat = true) (hC0 : 0 ≤ C.val) (hC1 : C.val ≤ 1) :
    ∃ lower upper,
      bernoulli_beta_credible_interval ppf M N a b C =
        Except.ok (lower, upper) ∧
      lower ≤ upper ∧ 0 ≤ lower ∧ lower ≤ 1 ∧ 0 ≤ upper ∧ upper ≤ 1 := by
  refine ⟨_, _, ci_ok_of_valid ppf M N a b C hM hN h0M hMN ha hb hC hC0 hC1,
    ?_, ?_, ?_, ?_, ?_⟩
  · exact hmono _ _ _ _ (by linarith)
  · exact (hrange _ _ _).1
  · exact (hrange _ _ _).2
  · exact (hrange _ _ _).1
  · exact (hrange _ _ _).2

/-- Witness for C2 at M = 310, N = 1126, prior Beta(1,1), C = 19/20, with a
clipped-identity quantile stub that is monotone with range in the unit
interval. -/
theorem credible_interval_bounds_unit_witness :
    ∃ lower upper,
      bernoulli_beta_credible_interval (fun p _ _ => max 0 (min 1 p))
        (PyNum.int 310) (PyNum.int 1126) (PyNum.float 1) (PyNum.float 1)
        (PyNum.float (19 / 20)) = Except.ok (lower, upper) ∧
      lower ≤ upper ∧ 0 ≤ lower ∧ lower ≤ 1 ∧ 0 ≤ upper ∧ upper ≤ 1 :=
  credible_interval_bounds_unit (fun p _ _ => max 0 (min 1 p))
    (PyNum.int 310) (PyNum.int 1126) (PyNum.float 1) (PyNum.float 1)
    (PyNum.float (19 / 20))
    (fun _ _ _ _ h => max_le_max le_rfl (min_le_min le_rfl h))
    (fun p _ _ => ⟨le_max_left 0 _, max_le zero_le_one (min_le_left 1 p)⟩)
    rfl rfl (by norm_num [PyNum.val]) (by norm_num [PyNum.val])
    (by norm_num [PyNum.val]) (by norm_num [PyNum.val]) rfl
    (by norm_num [PyNum.val]) (by norm_num [PyNum.val])

/-- Claim C3: every precondition violation makes the function raise an
error carrying a nonempty human-readable message, and in particular the
inputs M = -1 with N = 5, M = 5 with N = 3, a = 0, and C = 3/2 are each
rejected with the message of the violated precondition. -/
theorem credible_interval_rejects_invalid (ppf : ℚ → ℚ → ℚ → ℚ)
    (M N a b C : PyNum)
    (hviol : M.isInt = false ∨ N.isInt = false ∨ M.val < 0 ∨ N.val < M.val ∨
      a.val ≤ 0 ∨ b.val ≤ 0 ∨ C.isFloat = false ∨ C.val < 0 ∨ 1 < C.val) :
    (∃ e, bernoulli_beta_credible_interval ppf M N a b C = Except.error e ∧
      e.message ≠ "") ∧
    bernoulli_beta_credible_interval ppf (PyNum.int (-1)) (PyNum.int 5)
      (PyNum.float 1) (PyNum.float 1) (PyNum.float (19 / 20)) =
      Except.error
        (PyError.valueError "M, N must be non-negative, and N >= M") ∧
    bernoulli_beta_credible_interval ppf (PyNum.int 5) (PyNum.int 3)
      (PyNum.float 1) (PyNum.float 1) (PyNum.float (19 / 20)) =
      Except.error
        (PyError.valueError "M, N must be non-negative, and N >= M") ∧
    bernoulli_beta_credible_interval ppf (PyNum.int 310) (PyNum.int 1126)
      (PyNum.float 0) (PyNum.float 1) (PyNum.float (19 / 20)) =
      Except.error
        (PyError.valueError "Cannot have negative prior parameters!") ∧
    bernoulli_beta_credible_interval ppf (PyNum.int 310) (PyNum.int 1126)
      (PyNum.float 1) (PyNum.float 1) (PyNum.float (3 / 2)) =
      Except.error
        (PyError.valueError "C must be interpretable as a probability") := by
  refine ⟨?_, ?_, ?_, ?_, ?_⟩
  · by_cases h1 : M.isInt = false ∨ N.isInt = false
    · have heq : bernoulli_beta_credible_interval ppf M N a b C =
          Except.error (PyError.typeError "M, N must both be integers") := by
        unfold bernoulli_beta_credible_interval
        rw [if_pos h1]
      exact ⟨_, heq, by decide⟩
    · by_cases h2 : M.val < 0 ∨ N.val < M.val
      · have heq : bernoulli_beta_credible_interval ppf M N a b C =
            Except.error
              (PyError.valueError "M, N must be non-negative, and N >= M") := by
          unfold bernoulli_beta_credible_interval
          rw [if_neg h1, if_pos h2]
        exact ⟨_, heq, by decide⟩
      · by_cases h3 : a.val ≤ 0 ∨ b.val ≤ 0
        · have heq : bernoulli_beta_credible_interval ppf M N a b C =
              Except.error
                (PyError.valueError "Cannot have negative prior parameters!") := by
            unfold bernoulli_beta_credible_interval
            rw [if_neg h1, if_neg h2, if_pos h3]
          exact ⟨_, heq, by decide⟩
        · by_cases h4 : C.isFloat = false
          · have heq : bernoulli_beta_credible_interval ppf M N a b C =
                Except.error (PyError.typeError "C must be numeric") := by
              unfold bernoulli_beta_credible_interval
              rw [if_neg h1, if_neg h2, if_neg h3, if_pos h4]
            exact ⟨_, heq, by decide⟩
          · by_cases h5 : C.val < 0 ∨ 1 < C.val
            · have heq : bernoulli_beta_credible_interval ppf M N a b C =
                  Except.error (PyError.valueError
                    "C must be interpretable as a probability") := by
                unfold bernoulli_beta_credible_interval
                rw [if_neg h1, if_neg h2, if_neg h3, if_neg h4, if_pos h5]
              exact ⟨_, heq, by decide⟩
            · exact absurd hviol (by tauto)
  · norm_num [bernoulli_beta_credible_interval, PyNum.val, PyNum.isInt,
      PyNum.isFloat]
  · norm_num [bernoulli_beta_credible_interval, PyNum.val, PyNum.isInt,
      PyNum.isFloat]
  · norm_num [bernoulli_beta_credible_interval, PyNum.val, PyNum.isInt,
      PyNum.isFloat]
  · norm_num [bernoulli_beta_credible_interval, PyNum.val, PyNum.isInt,
      PyNum.isFloat]

/-- Witness for C3 at the violating input of a non-integer M, with the
identity-in-p quantile stub. -/
theorem credible_interval_rejects_invalid_witness :
    (∃ e, bernoulli_beta_credible_interval (fun p _ _ => p)
      (PyNum.float (1 / 2)) (PyNum.int 5) (PyNum.float 1) (PyNum.float 1)
      (PyNum.float (19 / 20)) = Except.error e ∧ e.message ≠ "") ∧
    bernoulli_beta_credible_interval (fun p _ _ => p) (PyNum.int (-1))
      (PyNum.int 5) (PyNum.float 1) (PyNum.float 1) (PyNum.float (19 / 20)) =
      Except.error
        (PyError.valueError "M, N must be non-negative, and N >= M") ∧
    bernoulli_beta_credible_interval (fun p _ _ => p) (PyNum.int 5)
      (PyNum.int 3) (PyNum.float 1) (PyNum.float 1) (PyNum.float (19 / 20)) =
      Except.error
        (PyError.valueError "M, N must be non-negative, and N >= M") ∧
    bernoulli_beta_credible_interval (fun p _ _ => p) (PyNum.int 310)
      (PyNum.int 1126) (PyNum.float 0) (PyNum.float 1)
      (PyNum.float (19 / 20)) =
      Except.error
        (PyError.valueError "Cannot have negative prior parameters!") ∧
    bernoulli_beta_credible_interval (fun p _ _ => p) (PyNum.int 310)
      (PyNum.int 1126) (PyNum.float 1) (PyNum.float 1)
      (PyNum.float (3 / 2)) =
      Except.error
        (PyError.valueError "C must be interpretable as a probability") :=
  credible_interval_rejects_invalid (fun p _ _ => p) (PyNum.float (1 / 2))
    (PyNum.int 5) (PyNum.float 1) (PyNum.float 1) (PyNum.float (19 / 20))
    (Or.inl rfl)

/-- Counterexample to C4: with valid M = 1, N = 2 and the uniform prior,
the credibility argument given as the Python integer 0 - a real number in
the unit interval - is rejected with a TypeError, because the code checks
the dynamic type of C with `type(C) is not float` before the range check;
the claim states this call succeeds. -/
theorem credible_interval_integer_C_rejected :
    bernoulli_beta_credible_interval (fun p _ _ => p) (PyNum.int 1)
      (PyNum.int 2) (PyNum.float 1) (PyNum.float 1) (PyNum.int 0) =
      Except.error (PyError.typeError "C must be numeric") := by
  rfl

/-- Claim C4 as amended: given integer M, N with 0 <= M <= N and strictly
positive priors, the call fails exactly when C is not a Python float, or
C < 0, or C > 1; in particular every float C in the unit interval
succeeds, while an integer-typed C (such as the integers 0 and 1) is
rejected even though its value lies in the unit interval. -/
theorem credible_interval_error_iff_C (ppf : ℚ → ℚ → ℚ → ℚ)
    (M N a b C : PyNum)
    (hM : M.isInt = true) (hN : N.isInt = true)
    (h0M : 0 ≤ M.val) (hMN : M.val ≤ N.val)
    (ha : 0 < a.val) (hb : 0 < b.val) :
    (∃ e, bernoulli_beta_credible_interval ppf M N a b C =
      Except.error e) ↔
      (C.isFloat = false ∨ C.val < 0 ∨ 1 < C.val) := by
  have c1 : ¬(M.isInt = false ∨ N.isInt = false) := by simp [hM, hN]
  have c2 : ¬(M.val < 0 ∨ N.val < M.val) := by push_neg; exact ⟨h0M, hMN⟩
  have c3 : ¬(a.val ≤ 0 ∨ b.val ≤ 0) := by push_neg; exact ⟨ha, hb⟩
  constructor
  · rintro ⟨e, he⟩
    by_contra hc
    push_neg at hc
    obtain ⟨hf, hc0, hc1⟩ := hc
    have hft : C.isFloat = true := by
      cases hCb : C.isFloat
      · exact absurd hCb hf
      · rfl
    rw [ci_ok_of_valid ppf M N a b C hM hN h0M hMN ha hb hft hc0 hc1] at he
    exact Except.noConfusion he
  · intro hc
    by_cases h4 : C.isFloat = false
    · refine ⟨PyError.typeError "C must be numeric", ?_⟩
      unfold bernoulli_beta_credible_interval
      rw [if_neg c1, if_neg c2, if_neg c3, if_pos h4]
    · have hft : C.isFloat = true := by
        cases hCb : C.isFloat
        · exact absurd hCb h4
        · rfl
      have h5 : C.val < 0 ∨ 1 < C.val := by
        rcases hc with h | h | h
        · exact absurd h h4
        · exact Or.inl h
        · exact Or.inr h
      have c4 : ¬(C.isFloat = false) := h4
      refine ⟨PyError.valueError "C must be interpretable as a probability", ?_⟩
      unfold bernoulli_beta_credible_interval
      rw [if_neg c1, if_neg c2, if_neg c3, if_neg c4, if_pos h5]

/-- Witness for the amended C4 at M = 1, N = 2, uniform prior, and the
integer credibility argument 0: the failure condition holds and the call
indeed errors. -/
theorem credible_interval_error_iff_C_witness :
    (∃ e, bernoulli_beta_credible_interval (fun p _ _ => p) (PyNum.int 1)
      (PyNum.int 2) (PyNum.float 1) (PyNum.float 1) (PyNum.int 0) =
      Except.error e) ↔
      ((PyNum.int 0).isFloat = false ∨ (PyNum.int 0).val < 0 ∨
        1 < (PyNum.int 0).val) :=
  credible_interval_error_iff_C (fun p _ _ => p) (PyNum.int 1) (PyNum.int 2)
    (PyNum.float 1) (PyNum.float 1) (PyNum.int 0) rfl rfl
    (by norm_num [PyNum.val]) (by norm_num [PyNum.val])
    (by norm_num [PyNum.val]) (by norm_num [PyNum.val])

/-- Claim C5: for fixed valid M, N and priors, with the external quantile
function monotone in its probability argument, the width of the returned
interval is monotonically non-decreasing in the credibility: if C1 < C2
are both valid, the interval at C2 is at least as wide as the one at
C1. -/
theorem credible_interval_width_monotone (ppf : ℚ → ℚ → ℚ → ℚ)
    (M N a b Clo Chi : PyNum)
    (hmono : ∀ p q x y : ℚ, p ≤ q → ppf p x y ≤ ppf q x y)
    (hM : M.isInt = true) (hN : N.isInt = true)
    (h0M : 0 ≤ M.val) (hMN : M.val ≤ N.val)
    (ha : 0 < a.val) (hb : 0 < b.val)
    (hCloF : Clo.isFloat = true) (hClo0 : 0 ≤ Clo.val) (hClo1 : Clo.val ≤ 1)
    (hChiF : Chi.isFloat = true) (hChi0 : 0 ≤ Chi.val) (hChi1 : Chi.val ≤ 1)
    (hlt : Clo.val < Chi.val) (p1 p2 : ℚ × ℚ)
    (h1 : bernoulli_beta_credible_interval ppf M N a b Clo = Except.ok p1)
    (h2 : bernoulli_beta_credible_interval ppf M N a b Chi = Except.ok p2) :
    p1.2 - p1.1 ≤ p2.2 - p2.1 := by
  rw [ci_ok_of_valid ppf M N a b Clo hM hN h0M hMN ha hb hCloF hClo0 hClo1]
    at h1
  rw [ci_ok_of_valid ppf M N a b Chi hM hN h0M hMN ha hb hChiF hChi0 hChi1]
    at h2
  obtain rfl : p1 = _ := (Except.ok.injEq _ _).mp h1.symm
  obtain rfl : p2 = _ := (Except.ok.injEq _ _).mp h2.symm
  have hl : ppf ((1 - Chi.val) / 2) (a.val + M.val) (b.val + N.val - M.val) ≤
      ppf ((1 - Clo.val) / 2) (a.val + M.val) (b.val + N.val - M.val) :=
    hmono _ _ _ _ (by linarith)
  have hu : ppf (1 - (1 - Clo.val) / 2) (a.val + M.val)
        (b.val + N.val - M.val) ≤
      ppf (1 - (1 - Chi.val) / 2) (a.val + M.val) (b.val + N.val - M.val) :=
    hmono _ _ _ _ (by linarith)
  dsimp only
  linarith

/-- Witness for C5 at M = 1, N = 2, uniform prior, credibilities 1/2 and
9/10, with the identity-in-p quantile stub: the width grows from 1/2 to
9/10. -/
theorem credible_interval_width_monotone_witness :
    ((1 : ℚ) / 4, (3 : ℚ) / 4).2 - ((1 : ℚ) / 4, (3 : ℚ) / 4).1 ≤
      ((1 : ℚ) / 20, (19 : ℚ) / 20).2 - ((1 : ℚ) / 20, (19 : ℚ) / 20).1 :=
  credible_interval_width_monotone (fun p _ _ => p) (PyNum.int 1)
    (PyNum.int 2) (PyNum.float 1) (PyNum.float 1) (PyNum.float (1 / 2))
    (PyNum.float (9 / 10)) (fun _ _ _ _ h => h) rfl rfl
    (by norm_num [PyNum.val]) (by norm_num [PyNum.val])
    (by norm_num [PyNum.val]) (by norm_num [PyNum.val]) rfl
    (by norm_num [PyNum.val]) (by norm_num [PyNum.val]) rfl
    (by norm_num [PyNum.val]) (by norm_num [PyNum.val])
    (by norm_num [PyNum.val]) ((1 : ℚ) / 4, (3 : ℚ) / 4)
    ((1 : ℚ) / 20, (19 : ℚ) / 20)
    (by norm_num [bernoulli_beta_credible_interval, PyNum.val, PyNum.isInt,
      PyNum.isFloat])
    (by norm_num [bernoulli_beta_credible_interval, PyNum.val, PyNum.isInt,
      PyNum.isFloat])

/-- Claim C6: at the boundary credibilities, for every valid M, N and
priors, C = 0 yields a degenerate interval whose lower and upper bounds
are both the posterior quantile at tail mass 1/2 (the median), and C = 1
yields the interval (0, 1), assuming the external quantile function sends
probability 0 to 0 and probability 1 to 1. -/
theorem credible_interval_boundary (ppf : ℚ → ℚ → ℚ → ℚ) (M N a b : PyNum)
    (hQ0 : ∀ x y : ℚ, ppf 0 x y = 0) (hQ1 : ∀ x y : ℚ, ppf 1 x y = 1)
    (hM : M.isInt = true) (hN : N.isInt = true)
    (h0M : 0 ≤ M.val) (hMN : M.val ≤ N.val)
    (ha : 0 < a.val) (hb : 0 < b.val) :
    bernoulli_beta_credible_interval ppf M N a b (PyNum.float 0) =
      Except.ok
        (ppf (1 / 2) (a.val + M.val) (b.val + N.val - M.val),
         ppf (1 / 2) (a.val + M.val) (b.val + N.val - M.val)) ∧
    bernoulli_beta_credible_interval ppf M N a b (PyNum.float 1) =
      Except.ok (0, 1) := by
  constructor
  · have h := ci_ok_of_valid ppf M N a b (PyNum.float 0) hM hN h0M hMN ha hb
      rfl (by norm_num [PyNum.val]) (by norm_num [PyNum.val])
    rw [h]
    norm_num [PyNum.val]
  · have h := ci_ok_of_valid ppf M N a b (PyNum.float 1) hM hN h0M hMN ha hb
      rfl (by norm_num [PyNum.val]) (by norm_num [PyNum.val])
    rw [h]
    norm_num [PyNum.val, hQ0, hQ1]

/-- Witness for C6 at M = 3, N = 10, uniform prior, with the identity-in-p
quantile stub: C = 0 gives the degenerate pair at 1/2 and C = 1 gives
(0, 1). -/
theorem credible_interval_boundary_witness :
    bernoulli_beta_credible_interval (fun p _ _ => p) (PyNum.int 3)
      (PyNum.int 10) (PyNum.float 1) (PyNum.float 1) (PyNum.float 0) =
      Except.ok (1 / 2, 1 / 2) ∧
    bernoulli_beta_credible_interval (fun p _ _ => p) (PyNum.int 3)
      (PyNum.int 10) (PyNum.float 1) (PyNum.float 1) (PyNum.float 1) =
      Except.ok (0, 1) :=
  credible_interval_boundary (fun p _ _ => p) (PyNum.int 3) (PyNum.int 10)
    (PyNum.float 1) (PyNum.float 1) (fun _ _ => rfl) (fun _ _ => rfl)
    rfl rfl (by norm_num [PyNum.val]) (by norm_num [PyNum.val])
    (by norm_num [PyNum.val]) (by norm_num [PyNum.val])

/-- Claim C7: the function is deterministic and stateless; it is a pure
function of its arguments and the external quantile provider, so two
calls with identical arguments return identical outputs. -/
theorem credible_interval_deterministic (ppf : ℚ → ℚ → ℚ → ℚ)
    (M N a b C M2 N2 a2 b2 C2 : PyNum)
    (hM : M = M2) (hN : N = N2) (ha : a = a2) (hb : b = b2) (hC : C = C2) :
    bernoulli_beta_credible_interval ppf M N a b C =
      bernoulli_beta_credible_interval ppf M2 N2 a2 b2 C2 := by
  rw [hM, hN, ha, hb, hC]

/-- Witness for C7: two calls at M = 310, N = 1126 with the default-like
arguments agree. -/
theorem credible_interval_deterministic_witness :
    bernoulli_beta_credible_interval (fun p _ _ => p) (PyNum.int 310)
      (PyNum.int 1126) (PyNum.float 1) (PyNum.float 1)
      (PyNum.float (19 / 20)) =
    bernoulli_beta_credible_interval (fun p _ _ => p) (PyNum.int 310)
      (PyNum.int 1126) (PyNum.float 1) (PyNum.float 1)
      (PyNum.float (19 / 20)) :=
  credible_interval_deterministic (fun p _ _ => p) (PyNum.int 310)
    (PyNum.int 1126) (PyNum.float 1) (PyNum.float 1) (PyNum.float (19 / 20))
    (PyNum.int 310) (PyNum.int 1126) (PyNum.float 1) (PyNum.float 1)
    (PyNum.float (19 / 20)) rfl rfl rfl rfl rfl

/-- Shared counting identity: the number of true entries of the comparison
array equals the number of indices at which the A-sample is below the
B-sample, for sample lists of a common length. -/
theorem trial_sum_eq_spec_count (sA : List ℚ) :
    ∀ (sB : List ℚ) (n : ℕ), sA.length = n → sB.length = n →
      trial_sum sA sB = spec_count_below n sA sB := by
  induction sA with
  | nil =>
    intro sB n hA hB
    subst hA
    simp [trial_sum, trial, spec_count_below]
  | cons x xs ih =>
    intro sB n hA hB
    cases sB with
    | nil =>
      rw [← hB] at hA
      simp at hA
    | cons y ys =>
      cases n with
      | zero => simp at hA
      | succ m =>
        have hA2 : xs.length = m := by simpa using hA
        have hB2 : ys.length = m := by simpa using hB
        have hrec := ih ys m hA2 hB2
        simp only [trial_sum, trial, spec_count_below] at hrec ⊢
        simp [List.range_succ_eq_map, List.countP_cons, List.countP_map,
          List.count_cons, List.getD_cons_succ, List.getD_cons_zero,
          Function.comp, hrec]
        apply List.countP_congr
        intro i hi
        simp [Function.comp, List.getD]

/-- Claim C8: for sample lists of a common length at least one, the
posterior comparison returns exactly the number of indices at which the
A-draw is below the B-draw divided by the number of samples, and this
value lies in the unit interval. -/
theorem trial_mean_fraction (n : ℕ) (sA sB : List ℚ)
    (hA : sA.length = n) (hB : sB.length = n) (hn : 1 ≤ n) :
    trial_mean sA sB = (spec_count_below n sA sB : ℚ) / (n : ℚ) ∧
    0 ≤ trial_mean sA sB ∧ trial_mean sA sB ≤ 1 := by
  have hlen : (trial sA sB).length = n := by
    simp [trial, hA, hB]
  have hcount : trial_sum sA sB ≤ n := by
    have h := List.count_le_length true (trial sA sB)
    rw [hlen] at h
    exact h
  have hnpos : (0 : ℚ) < (n : ℚ) := by
    have : 0 < n := hn
    exact_mod_cast this
  have hmean : trial_mean sA sB = (trial_sum sA sB : ℚ) / (n : ℚ) := by
    rw [trial_mean, hlen]
  refine ⟨?_, ?_, ?_⟩
  · rw [hmean, trial_sum_eq_spec_count sA sB n hA hB]
  · rw [hmean]
    positivity
  · rw [hmean, div_le_one hnpos]
    exact_mod_cast hcount

/-- Witness for C8 on the sample lists (1/2, 1/4) and (3/4, 1/8): the
estimate is the single below-pair divided by two samples and lies in the
unit interval. -/
theorem trial_mean_fraction_witness :
    trial_mean [1 / 2, 1 / 4] [3 / 4, 1 / 8] =
      (spec_count_below 2 [1 / 2, 1 / 4] [3 / 4, 1 / 8] : ℚ) / ((2 : ℕ) : ℚ) ∧
    0 ≤ trial_mean [1 / 2, 1 / 4] [3 / 4, 1 / 8] ∧
    trial_mean [1 / 2, 1 / 4] [3 / 4, 1 / 8] ≤ 1 :=
  trial_mean_fraction 2 [1 / 2, 1 / 4] [3 / 4, 1 / 8] rfl rfl (by norm_num)

/-- Claim C9: the posterior comparison operation rejects a sample count
below one or a posterior with a non-positive component with the
InvalidArgument error kind, and it does so before drawing any samples, so
the outcome does not depend on the external random-variate provider. -/
theorem compare_posteriors_rejects_invalid
    (sample1 sample2 : ℚ → ℚ → Int → List ℚ) (pA pB : ℚ × ℚ)
    (num_samples : Int)
    (hviol : num_samples < 1 ∨ pA.1 ≤ 0 ∨ pA.2 ≤ 0 ∨ pB.1 ≤ 0 ∨ pB.2 ≤ 0) :
    (∃ m, compare_posteriors sample1 pA pB num_samples =
      Except.error (SpecError.invalidArgument m)) ∧
    compare_posteriors sample1 pA pB num_samples =
      compare_posteriors sample2 pA pB num_samples := by
  by_cases h1 : num_samples < 1
  · have e1 : compare_posteriors sample1 pA pB num_samples =
        Except.error (SpecError.invalidArgument
          "num_samples must be at least 1") := by
      unfold compare_posteriors
      rw [if_pos h1]
    have e2 : compare_posteriors sample2 pA pB num_samples =
        Except.error (SpecError.invalidArgument
          "num_samples must be at least 1") := by
      unfold compare_posteriors
      rw [if_pos h1]
    exact ⟨⟨_, e1⟩, e1.trans e2.symm⟩
  · have h2 : pA.1 ≤ 0 ∨ pA.2 ≤ 0 ∨ pB.1 ≤ 0 ∨ pB.2 ≤ 0 := by tauto
    have e1 : compare_posteriors sample1 pA pB num_samples =
        Except.error (SpecError.invalidArgument
          "posterior parameters must be strictly positive") := by
      unfold compare_posteriors
      rw [if_neg h1, if_pos h2]
    have e2 : compare_posteriors sample2 pA pB num_samples =
        Except.error (SpecError.invalidArgument
          "posterior parameters must be strictly positive") := by
      unfold compare_posteriors
      rw [if_neg h1, if_pos h2]
    exact ⟨⟨_, e1⟩, e1.trans e2.symm⟩

/-- Witness for C9 at num_samples = 0 with two different providers: the
call errors and the two outcomes coincide. -/
theorem compare_posteriors_rejects_invalid_witness :
    (∃ m, compare_posteriors (fun _ _ _ => []) (1, 1) (1, 1) 0 =
      Except.error (SpecError.invalidArgument m)) ∧
    compare_posteriors (fun _ _ _ => []) (1, 1) (1, 1) 0 =
      compare_posteriors (fun x _ _ => [x]) (1, 1) (1, 1) 0 :=
  compare_posteriors_rejects_invalid (fun _ _ _ => []) (fun x _ _ => [x])
    (1, 1) (1, 1) 0 (Or.inl (by norm_num))

/-- Claim C10: the function declares default arguments a = 1, b = 1 and
C = 0.95, so a call supplying only M and N equals the call with the
uniform Beta(1,1) prior and credibility 0.95, and on valid M, N it
returns the posterior Beta(1 + M, 1 + (N - M)) quantiles at tail masses
1/40 and 39/40; the spec lists all five parameters as required and states
no defaults. -/
theorem credible_interval_default_arguments (ppf : ℚ → ℚ → ℚ → ℚ)
    (M N : PyNum)
    (hM : M.isInt = true) (hN : N.isInt = true)
    (h0M : 0 ≤ M.val) (hMN : M.val ≤ N.val) :
    bernoulli_beta_credible_interval_MN ppf M N =
      bernoulli_beta_credible_interval ppf M N (PyNum.int 1) (PyNum.int 1)
        (PyNum.float (19 / 20)) ∧
    bernoulli_beta_credible_interval_MN ppf M N =
      Except.ok
        (ppf (1 / 40) (1 + M.val) (1 + (N.val - M.val)),
         ppf (39 / 40) (1 + M.val) (1 + (N.val - M.val))) := by
  constructor
  · rfl
  · have h := ci_ok_of_valid ppf M N (PyNum.int 1) (PyNum.int 1)
      (PyNum.float (19 / 20)) hM hN h0M hMN (by norm_num [PyNum.val])
      (by norm_num [PyNum.val]) rfl (by norm_num [PyNum.val])
      (by norm_num [PyNum.val])
    rw [bernoulli_beta_credible_interval_MN, h]
    norm_num [PyNum.val]
    constructor <;> ring_nf

/-- Witness for C10 at M = 310, N = 1126 with the identity-in-p quantile
stub: the two-argument call equals the fully supplied call and returns
the pair of tail masses 1/40 and 39/40. -/
theorem credible_interval_default_arguments_witness :
    bernoulli_beta_credible_interval_MN (fun p _ _ => p) (PyNum.int 310)
      (PyNum.int 1126) =
      bernoulli_beta_credible_interval (fun p _ _ => p) (PyNum.int 310)
        (PyNum.int 1126) (PyNum.int 1) (PyNum.int 1)
        (PyNum.float (19 / 20)) ∧
    bernoulli_beta_credible_interval_MN (fun p _ _ => p) (PyNum.int 310)
      (PyNum.int 1126) = Except.ok (1 / 40, 39 / 40) :=
  credible_interval_default_arguments (fun p _ _ => p) (PyNum.int 310)
    (PyNum.int 1126) rfl rfl (by norm_num [PyNum.val])
    (by norm_num [PyNum.val])
